import Mathlib

/-!
Shallow embedding of the MERN auth server's core service layer
(src/service/auth.service.ts) and proofs of its specified properties.

The six operations of the service are modelled as pure functions over an
explicit store state (DB).  External collaborators that live outside the
service file — the document stores, the password-hashing capability, the
token signer and the mailer — are modelled abstractly, following the
spec's interface contracts (spec sections 3 and 6): hashing is an explicit
function argument, token verification results are passed as an already
decoded payload option, the mailer outcome is an explicit argument, and
times are absolute millisecond timestamps passed as an explicit `now`.
-/

namespace AuthService

/-- HTTP status constant from src/constants/http. -/
def CONFLICT : Nat := 409

/-- HTTP status constant from src/constants/http. -/
def UNAUTHORIZED : Nat := 401

/-- HTTP status constant from src/constants/http. -/
def NOT_FOUND : Nat := 404

/-- HTTP status constant from src/constants/http. -/
def TOO_MANY_REQUESTS : Nat := 429

/-- HTTP status constant from src/constants/http. -/
def INTERNAL_SERVER_ERROR : Nat := 500

/-- Modelled from the spec: each failure carries a kind (HTTP status code)
and a human-readable message, thrown by the appAssert utility
(src/utils/appAssert, not part of the provided sources). -/
structure AppError where
  status : Nat
  message : String
deriving DecidableEq, BEq, Repr

/-- Modelled from the spec: appAssert(condition, httpStatusCode, message)
throws an AppError with the given status and message when the condition
is falsy, and does nothing otherwise. -/
def appAssert (cond : Bool) (status : Nat) (message : String) :
    Except AppError Unit :=
  if cond then .ok () else .error ⟨status, message⟩

/-- Modelled from the spec: ONE_DAY_MS from src/utils/date — 24 hours in
milliseconds. -/
def ONE_DAY_MS : Int := 24 * 60 * 60 * 1000

/-- Modelled from the spec: thirtyDaysFromNow from src/utils/date — the
design-default 30-day session window, as an absolute timestamp. -/
def thirtyDaysFromNow (now : Int) : Int := now + 30 * ONE_DAY_MS

/-- Modelled from the spec: oneHourFromNow from src/utils/date — the
1-hour password-reset-code expiry, as an absolute timestamp. -/
def oneHourFromNow (now : Int) : Int := now + 60 * 60 * 1000

/-- Modelled from the spec: oneYearFromNow from src/utils/date — the
far-future (one year) email-verification-code expiry. -/
def oneYearFromNow (now : Int) : Int := now + 365 * ONE_DAY_MS

/-- Modelled from the spec: fiveMinutesAgo from src/utils/date — the lower
bound of the rolling password-reset throttle window. -/
def fiveMinutesAgo (now : Int) : Int := now - 5 * 60 * 1000

/-- Modelled from the spec: the configured origin used to build
verification and reset URLs (src/constants/env).  Its value is
environment-defined; no claim depends on it. -/
def APP_ORIGIN : String := "APP_ORIGIN"

/-- VerificationCodeType from src/constants/verificationCodeType. -/
inductive VerificationCodeType
  | EmailVerification
  | PasswordReset
deriving DecidableEq, BEq, Repr

/-- User record (src/models/user.model): id, unique email, stored password
hash, verified flag, creation time.  The password field holds the hash,
as stored by the model's pre-save hashing hook. -/
structure User where
  id : Nat
  email : String
  password : String
  verified : Bool
  createdAt : Int
deriving DecidableEq, BEq, Repr

/-- The user projection produced by user.omitPassword(): every field of
the user record except the password hash. -/
structure UserDTO where
  id : Nat
  email : String
  verified : Bool
  createdAt : Int
deriving DecidableEq, BEq, Repr

/-- omitPassword from the user model: drops the password hash and keeps
every other field. -/
def User.omitPassword (u : User) : UserDTO :=
  { id := u.id, email := u.email, verified := u.verified,
    createdAt := u.createdAt }

/-- Session record (src/models/session.model): id, owning user, optional
user agent, absolute expiry, creation time. -/
structure Session where
  id : Nat
  userId : Nat
  userAgent : Option String
  expiresAt : Int
  createdAt : Int
deriving DecidableEq, BEq, Repr

/-- VerificationCode record (src/models/verificationCode.model): the id is
the bearer secret, with a back-reference to the user, a type, an absolute
expiry and a creation time (used by the reset throttle). -/
structure VerificationCode where
  id : Nat
  userId : Nat
  type : VerificationCodeType
  expiresAt : Int
  createdAt : Int
deriving DecidableEq, BEq, Repr

/-- The document-store state the service reads and writes: the three
collections plus a counter supplying fresh store-assigned ids. -/
structure DB where
  users : List User
  sessions : List Session
  codes : List VerificationCode
  nextId : Nat
deriving DecidableEq, BEq, Repr

/-- Bearer tokens produced by signToken (src/utils/jwt): an access token
carries userId and sessionId claims, a refresh token carries only the
sessionId claim.  Signing internals are external to the core, so tokens
are modelled by their claims. -/
inductive Token
  | access (userId sessionId : Nat)
  | refresh (sessionId : Nat)
deriving DecidableEq, BEq, Repr

/-- RefreshTokenPayload from src/utils/jwt: the decoded claims of a
refresh token. -/
structure RefreshTokenPayload where
  sessionId : Nat
deriving DecidableEq, BEq, Repr

/-- Outcome of sendMail (src/utils/sendMail): either a delivery id or an
error with a name and a message. -/
inductive MailResult
  | delivered (id : String)
  | failed (name message : String)
deriving DecidableEq, BEq, Repr

/-- comparePassword from the user model: verify a plaintext password
against the stored hash (hashing delegated to the external capability). -/
def comparePassword (hash : String → String) (plain stored : String) : Bool :=
  hash plain == stored

/-- CreateAccountParams from auth.service.ts. -/
structure CreateAccountParams where
  email : String
  password : String
  userAgent : Option String
deriving DecidableEq, BEq, Repr

/-- The value returned by createAccount and loginUser: the user without
its password hash, plus the freshly signed token pair. -/
structure AuthResult where
  user : UserDTO
  accessToken : Token
  refreshToken : Token
deriving DecidableEq, BEq, Repr

/-- createAccount from auth.service.ts: reject a duplicate email with
CONFLICT, create the user (password hashed by the model hook), create an
EmailVerification code expiring in one year, attempt the verification
email (failures logged and ignored), create a session, sign the token
pair, return the user without password plus both tokens.  The session's
expiresAt is the session model's default 30-day window (modelled from the
spec, the model file being outside the provided sources). -/
def createAccount (hash : String → String) (now : Int)
    (mailOutcome : MailResult) (data : CreateAccountParams) (db : DB) :
    Except AppError (AuthResult × DB) := do
  let existingUser := db.users.any fun u => u.email == data.email
  appAssert (!existingUser) CONFLICT "Email already in use"
  let user : User :=
    { id := db.nextId, email := data.email, password := hash data.password,
      verified := false, createdAt := now }
  let verificationCode : VerificationCode :=
    { id := db.nextId + 1, userId := user.id,
      type := .EmailVerification, expiresAt := oneYearFromNow now,
      createdAt := now }
  -- send verification email; `if (error) console.error(error)` — the
  -- mail outcome is logged and otherwise ignored
  let _error := mailOutcome
  let session : Session :=
    { id := db.nextId + 2, userId := user.id, userAgent := data.userAgent,
      expiresAt := thirtyDaysFromNow now, createdAt := now }
  let db' : DB :=
    { users := db.users ++ [user],
      sessions := db.sessions ++ [session],
      codes := db.codes ++ [verificationCode],
      nextId := db.nextId + 3 }
  .ok ({ user := user.omitPassword,
         accessToken := Token.access user.id session.id,
         refreshToken := Token.refresh session.id }, db')

/-- LoginParams from auth.service.ts. -/
structure LoginParams where
  email : String
  password : String
  userAgent : Option String
deriving DecidableEq, BEq, Repr

/-- loginUser from auth.service.ts, modelled faithfully to the source:
after the user lookup succeeds, the password comparison result is bound
to isValid, but the second appAssert re-checks the (already non-null)
user instead of isValid, so a wrong password is never rejected and the
operation proceeds to create a session and sign tokens. -/
def loginUser (hash : String → String) (now : Int) (p : LoginParams)
    (db : DB) : Except AppError (AuthResult × DB) := do
  let user? := db.users.find? fun u => u.email == p.email
  appAssert user?.isSome UNAUTHORIZED "Invalid email or password"
  -- const isValid = user.comparePassword(password);
  let _isValid := user?.any fun u => comparePassword hash p.password u.password
  -- appAssert(user, UNAUTHORIZED, "Invalid email or password"):
  -- the source asserts the user again, not isValid
  appAssert user?.isSome UNAUTHORIZED "Invalid email or password"
  match user? with
  | none => .error ⟨UNAUTHORIZED, "Invalid email or password"⟩
  | some user =>
    let session : Session :=
      { id := db.nextId, userId := user.id, userAgent := p.userAgent,
        expiresAt := thirtyDaysFromNow now, createdAt := now }
    let db' : DB := { db with sessions := db.sessions ++ [session],
                              nextId := db.nextId + 1 }
    .ok ({ user := user.omitPassword,
           accessToken := Token.access user.id session.id,
           refreshToken := Token.refresh session.id }, db')

/-- The value returned by refreshUserAccessToken: a fresh access token,
and a new refresh token only when the session was renewed. -/
structure RefreshResult where
  accessToken : Token
  newRefreshToken : Option Token
deriving DecidableEq, BEq, Repr

/-- refreshUserAccessToken from auth.service.ts.  Token signature
verification is the external TokenSigner capability, so the function
receives the decoded payload option produced by verifyToken: none stands
for an invalid signature or malformed payload.  If the referenced session
is absent or its expiresAt is not strictly after now, fail UNAUTHORIZED
"Session expired".  If the session expires within the next 24 hours,
extend it to thirty days from now, persist it, and sign a new refresh
token; otherwise leave it untouched.  Always sign a fresh access token
from the session's userId and id. -/
def refreshUserAccessToken (now : Int)
    (payload? : Option RefreshTokenPayload) (db : DB) :
    Except AppError (RefreshResult × DB) :=
  match payload? with
  | none => .error ⟨UNAUTHORIZED, "Invalid refresh token"⟩
  | some payload =>
    match db.sessions.find? (fun s => s.id == payload.sessionId) with
    | none => .error ⟨UNAUTHORIZED, "Session expired"⟩
    | some session =>
      if session.expiresAt > now then
        let sessionNeedsRefresh := session.expiresAt - now ≤ ONE_DAY_MS
        let db' : DB :=
          if sessionNeedsRefresh then
            { db with sessions := db.sessions.map fun s =>
                if s.id == session.id then
                  { s with expiresAt := thirtyDaysFromNow now }
                else s }
          else db
        let newRefreshToken :=
          if sessionNeedsRefresh then some (Token.refresh session.id)
          else none
        .ok ({ accessToken := Token.access session.userId session.id,
               newRefreshToken := newRefreshToken }, db')
      else .error ⟨UNAUTHORIZED, "Session expired"⟩

/-- verifyEmail from auth.service.ts: find a code with the given id, type
EmailVerification and expiresAt strictly after now, else NOT_FOUND.  Set
the referenced user's verified flag (findByIdAndUpdate with new true
returns the updated document), else INTERNAL_SERVER_ERROR.  Delete the
code and return the updated user without its password. -/
def verifyEmail (now : Int) (code : Nat) (db : DB) :
    Except AppError (UserDTO × DB) :=
  match db.codes.find? (fun c =>
      c.id == code && c.type == VerificationCodeType.EmailVerification &&
      c.expiresAt > now) with
  | none => .error ⟨NOT_FOUND, "Invalid or expired verification code"⟩
  | some validCode =>
    match db.users.find? (fun u => u.id == validCode.userId) with
    | none => .error ⟨INTERNAL_SERVER_ERROR, "Failed to verify email"⟩
    | some user =>
      let updatedUser : User := { user with verified := true }
      let db' : DB :=
        { db with
          users := db.users.map fun u =>
            if u.id == validCode.userId then { u with verified := true }
            else u,
          codes := db.codes.filter fun c => c.id != validCode.id }
      .ok (updatedUser.omitPassword, db')

/-- The value returned by a fully successful password-reset request: the
reset url and the mailer's delivery id. -/
structure ResetEmailData where
  url : String
  emailId : String
deriving DecidableEq, BEq, Repr

/-- The body of the try block of sendPasswordResetEmail from
auth.service.ts: find the user by email (NOT_FOUND otherwise), count
PasswordReset codes created for that user within the last five minutes
and require the count to be at most one (TOO_MANY_REQUESTS otherwise),
create a PasswordReset code expiring in one hour, build the reset url,
send the mail and require a delivery id (INTERNAL_SERVER_ERROR
otherwise).  State changes made before a throw survive it, so the error
branch carries the store state reached at the throw point. -/
def sendPasswordResetEmailTry (now : Int) (mailOutcome : MailResult)
    (email : String) (db : DB) :
    Except (AppError × DB) (ResetEmailData × DB) :=
  match db.users.find? (fun u => u.email == email) with
  | none => .error (⟨NOT_FOUND, "User not found"⟩, db)
  | some user =>
    let fiveMinAgo := fiveMinutesAgo now
    let count := (db.codes.filter fun c =>
      c.userId == user.id && c.type == VerificationCodeType.PasswordReset &&
      c.createdAt > fiveMinAgo).length
    if count ≤ 1 then
      let expiresAt := oneHourFromNow now
      let verificationCode : VerificationCode :=
        { id := db.nextId, userId := user.id,
          type := .PasswordReset, expiresAt := expiresAt, createdAt := now }
      let db' : DB := { db with codes := db.codes ++ [verificationCode],
                                nextId := db.nextId + 1 }
      let url := APP_ORIGIN ++ "/password/reset?code=" ++
        toString verificationCode.id ++ "&exp=" ++ toString expiresAt
      match mailOutcome with
      | .delivered mailId => .ok ({ url := url, emailId := mailId }, db')
      | .failed name msg =>
        .error (⟨INTERNAL_SERVER_ERROR, name ++ " - " ++ msg⟩, db')
    else
      .error (⟨TOO_MANY_REQUESTS,
               "Too many requests, please try again later"⟩, db)

/-- sendPasswordResetEmail from auth.service.ts: the catch block logs the
error and returns an empty object, so every internal failure becomes the
same empty, success-shaped result. -/
def sendPasswordResetEmail (now : Int) (mailOutcome : MailResult)
    (email : String) (db : DB) : Option ResetEmailData × DB :=
  match sendPasswordResetEmailTry now mailOutcome email db with
  | .ok (r, db') => (some r, db')
  | .error (_, db') => (none, db')

/-- ResetPasswordParams from auth.service.ts. -/
structure ResetPasswordParams where
  password : String
  verificationCode : Nat
deriving DecidableEq, BEq, Repr

/-- resetPassword from auth.service.ts: find a code with the given id,
type PasswordReset and expiresAt strictly after now, else NOT_FOUND.
Update the referenced user's password to the hash of the new password
(findByIdAndUpdate without the new option returns the pre-update
document), else INTERNAL_SERVER_ERROR.  Delete the code, delete all of
the user's sessions, and return the looked-up user without its
password. -/
def resetPassword (hash : String → String) (now : Int)
    (p : ResetPasswordParams) (db : DB) : Except AppError (UserDTO × DB) :=
  match db.codes.find? (fun c =>
      c.id == p.verificationCode &&
      c.type == VerificationCodeType.PasswordReset &&
      c.expiresAt > now) with
  | none => .error ⟨NOT_FOUND, "Invalid or expired verification code"⟩
  | some validCode =>
    match db.users.find? (fun u => u.id == validCode.userId) with
    | none => .error ⟨INTERNAL_SERVER_ERROR, "Failed to reset password"⟩
    | some updatedUser =>
      let db' : DB :=
        { db with
          users := db.users.map fun u =>
            if u.id == validCode.userId then
              { u with password := hash p.password }
            else u,
          codes := db.codes.filter fun c => c.id != validCode.id,
          sessions := db.sessions.filter fun s =>
            s.userId != validCode.userId }
      .ok (updatedUser.omitPassword, db')

/-- The store state carried by either branch of the try body of the
password-reset request. -/
def tryStateDB : Except (AppError × DB) (ResetEmailData × DB) → DB
  | .ok (_, d) => d
  | .error (_, d) => d

/-! Concrete fixtures used by the witness theorems. -/

/-- A concrete injective stand-in for the external password-hashing
capability, used only in witnesses. -/
def demoHash (s : String) : String := "#" ++ s

/-- A concrete stored user whose password is the hash of pw1. -/
def demoUser : User :=
  { id := 0, email := "a@x.com", password := demoHash "pw1",
    verified := false, createdAt := 0 }

/-- A store holding only demoUser. -/
def userOnlyDB : DB :=
  { users := [demoUser], sessions := [], codes := [], nextId := 1 }

/-- A concrete live password-reset code for demoUser. -/
def resetCode : VerificationCode :=
  { id := 5, userId := 0, type := .PasswordReset, expiresAt := 1000,
    createdAt := 0 }

/-- A store with demoUser, the reset code, one session of demoUser and one
session of another user. -/
def resetDB : DB :=
  { users := [demoUser],
    sessions :=
      [ { id := 7, userId := 0, userAgent := none, expiresAt := 2000,
          createdAt := 0 },
        { id := 8, userId := 1, userAgent := none, expiresAt := 2000,
          createdAt := 0 } ],
    codes := [resetCode], nextId := 9 }

/-- A live session that, at time 500, expires within the next 24 hours. -/
def liveSession : Session :=
  { id := 3, userId := 0, userAgent := none, expiresAt := 1000,
    createdAt := 0 }

/-- A session already expired at time 500. -/
def expiredSession : Session :=
  { id := 4, userId := 0, userAgent := none, expiresAt := 100,
    createdAt := 0 }

/-- A store with one soon-expiring live session and one expired session. -/
def refreshDB : DB :=
  { users := [], sessions := [liveSession, expiredSession], codes := [],
    nextId := 10 }

/-- A session whose remaining lifetime at time 500 is exactly two days. -/
def farSession : Session :=
  { id := 6, userId := 2, userAgent := none, expiresAt := 172800000500,
    createdAt := 0 }

/-- A store holding only the far-future session. -/
def farDB : DB :=
  { users := [], sessions := [farSession], codes := [], nextId := 1 }

/-- A concrete live email-verification code for demoUser. -/
def verifyCode : VerificationCode :=
  { id := 5, userId := 0, type := .EmailVerification, expiresAt := 1000,
    createdAt := 0 }

/-- A store with demoUser and the email-verification code. -/
def verifyDB : DB :=
  { users := [demoUser], sessions := [], codes := [verifyCode], nextId := 6 }

/-- The store produced by consuming verifyCode in verifyDB at time 500. -/
def verifiedDB : DB :=
  { users := [{ demoUser with verified := true }], sessions := [],
    codes := [], nextId := 6 }

/-- The empty store. -/
def emptyDB : DB := { users := [], sessions := [], codes := [], nextId := 0 }

/-- The user createAccount adds to emptyDB for email b@x.com. -/
def newUser : User :=
  { id := 0, email := "b@x.com", password := demoHash "pw",
    verified := false, createdAt := 0 }

/-- The store produced by creating newUser's account in emptyDB at time
0. -/
def createdDB : DB :=
  { users := [newUser],
    sessions :=
      [ { id := 2, userId := 0, userAgent := none,
          expiresAt := thirtyDaysFromNow 0, createdAt := 0 } ],
    codes :=
      [ { id := 1, userId := 0, type := .EmailVerification,
          expiresAt := oneYearFromNow 0, createdAt := 0 } ],
    nextId := 3 }

/-- The value createAccount returns for newUser's account. -/
def createdResult : AuthResult :=
  { user := newUser.omitPassword, accessToken := Token.access 0 2,
    refreshToken := Token.refresh 2 }

/-- An expired session of a user is preserved untouched, or disappears
with no other session left carrying its id — it is never present in a
modified form. -/
def preservesExpiredSessions (db db' : DB) (now : Int) : Prop :=
  ∀ s ∈ db.sessions, s.expiresAt ≤ now →
    s ∈ db'.sessions ∨ ∀ t ∈ db'.sessions, t.id ≠ s.id

/-- The store produced by refreshing session 3 of refreshDB at time 500:
the live session's expiry is extended, the expired one is untouched. -/
def renewedDB : DB :=
  { users := [],
    sessions := [{ liveSession with expiresAt := thirtyDaysFromNow 500 },
                 expiredSession],
    codes := [], nextId := 10 }

/-! Theorems -/

/-- C1: the claim fails on the code.  loginUser computes the password
comparison into isValid but then re-asserts the already non-null user, so
a login with a stored user's email and a password whose hash does not
match the stored hash does not fail Unauthorized: it succeeds, creates a
session, and returns tokens.  Concretely, with demoUser stored (hash of
pw1) and the wrong password wrong, the hash mismatches yet loginUser
returns ok and one session is created. -/
theorem loginUser_accepts_wrong_password :
    demoHash "wrong" ≠ demoUser.password ∧
    loginUser demoHash 0 ⟨"a@x.com", "wrong", none⟩ userOnlyDB =
      .ok ({ user := demoUser.omitPassword,
             accessToken := Token.access 0 1,
             refreshToken := Token.refresh 1 },
           { userOnlyDB with
             sessions := [⟨1, 0, none, thirtyDaysFromNow 0, 0⟩],
             nextId := 2 }) := by
  exact ⟨by decide, rfl⟩

/-- C2: for every stored PasswordReset code whose expiry is strictly in
the future and whose referenced user is stored, resetPassword with the
code's id and a new password succeeds: it rehashes the referenced user's
password, deletes the code, deletes every session of that user, and
returns the updated user with the password field omitted. -/
theorem resetPassword_success (hash : String → String) (now : Int)
    (pw : String) (codeId : Nat) (db : DB) (c : VerificationCode) (u : User)
    (hc : db.codes.find? (fun cd => cd.id == codeId &&
        cd.type == VerificationCodeType.PasswordReset &&
        cd.expiresAt > now) = some c)
    (hu : db.users.find? (fun v => v.id == c.userId) = some u) :
    resetPassword hash now ⟨pw, codeId⟩ db =
      .ok (User.omitPassword { u with password := hash pw },
        { db with
          users := db.users.map fun v =>
            if v.id == c.userId then { v with password := hash pw } else v,
          codes := db.codes.filter fun cd => cd.id != c.id,
          sessions := db.sessions.filter fun s =>
            s.userId != c.userId }) := by
  simp only [resetPassword, hc, hu]
  rfl

/-- Witness for C2 at a concrete store: demoUser with a live reset code,
one of demoUser's sessions and one foreign session; the foreign session
survives, demoUser's does not. -/
theorem resetPassword_success_witness :
    resetPassword demoHash 500 ⟨"pw2", 5⟩ resetDB =
      .ok (User.omitPassword { demoUser with password := demoHash "pw2" },
        { resetDB with
          users := resetDB.users.map fun v =>
            if v.id == resetCode.userId then
              { v with password := demoHash "pw2" }
            else v,
          codes := resetDB.codes.filter fun cd => cd.id != resetCode.id,
          sessions := resetDB.sessions.filter fun s =>
            s.userId != resetCode.userId }) :=
  resetPassword_success demoHash 500 "pw2" 5 resetDB resetCode demoUser
    (by decide) (by decide)

/-- C3: for every refresh-token payload whose session is stored and live
(expiresAt strictly after now): when the remaining lifetime is at most 24
hours the session's expiresAt becomes thirty days from now, the change is
persisted, and a new refresh token bound to the same session id is
returned; when the remaining lifetime exceeds 24 hours the store is left
unchanged and no new refresh token is returned; in both cases a fresh
access token bound to the session's userId and id is returned. -/
theorem refreshUserAccessToken_renewal_policy (now : Int) (sid : Nat)
    (db : DB) (s : Session)
    (hfind : db.sessions.find? (fun t => t.id == sid) = some s)
    (hlive : s.expiresAt > now) :
    (s.expiresAt - now ≤ ONE_DAY_MS →
      refreshUserAccessToken now (some ⟨sid⟩) db =
        .ok ({ accessToken := Token.access s.userId s.id,
               newRefreshToken := some (Token.refresh s.id) },
             { db with sessions := db.sessions.map fun t =>
                 if t.id == s.id then
                   { t with expiresAt := thirtyDaysFromNow now }
                 else t })) ∧
    (ONE_DAY_MS < s.expiresAt - now →
      refreshUserAccessToken now (some ⟨sid⟩) db =
        .ok ({ accessToken := Token.access s.userId s.id,
               newRefreshToken := none }, db)) := by
  constructor
  · intro hle
    simp only [refreshUserAccessToken, hfind, if_pos hlive, if_pos hle]
  · intro hgt
    simp only [refreshUserAccessToken, hfind, if_pos hlive,
      if_neg (not_le.mpr hgt)]

/-- Witness for C3, renewal branch: at time 500, the session with id 3
expires at 1000 (within 24 hours), so its expiry is extended to thirty
days from 500 and a new refresh token for session 3 is returned. -/
theorem refreshUserAccessToken_renewal_policy_witness :
    refreshUserAccessToken 500 (some ⟨3⟩) refreshDB =
      .ok ({ accessToken := Token.access liveSession.userId liveSession.id,
             newRefreshToken := some (Token.refresh liveSession.id) },
           { refreshDB with sessions := refreshDB.sessions.map fun t =>
               if t.id == liveSession.id then
                 { t with expiresAt := thirtyDaysFromNow 500 }
               else t }) :=
  (refreshUserAccessToken_renewal_policy 500 3 refreshDB liveSession
    (by decide) (by decide)).1 (by decide)

/-- C4: for every refresh-token payload whose embedded session id
references no stored session, or references a session with expiresAt at
or before now, refreshUserAccessToken fails Unauthorized with message
Session expired, even though the payload itself decoded successfully. -/
theorem refreshUserAccessToken_session_expired (now : Int) (sid : Nat)
    (db : DB)
    (h : db.sessions.find? (fun t => t.id == sid) = none ∨
         ∃ s, db.sessions.find? (fun t => t.id == sid) = some s ∧
           s.expiresAt ≤ now) :
    refreshUserAccessToken now (some ⟨sid⟩) db =
      .error ⟨UNAUTHORIZED, "Session expired"⟩ := by
  rcases h with hnone | ⟨s, hfind, hexp⟩
  · simp only [refreshUserAccessToken, hnone]
  · simp only [refreshUserAccessToken, hfind, if_neg (not_lt.mpr hexp)]

/-- Witness for C4: at time 500, session 4 is stored but expired at 100,
so refreshing a token bound to it fails Unauthorized Session expired. -/
theorem refreshUserAccessToken_session_expired_witness :
    refreshUserAccessToken 500 (some ⟨4⟩) refreshDB =
      .error ⟨UNAUTHORIZED, "Session expired"⟩ :=
  refreshUserAccessToken_session_expired 500 4 refreshDB
    (Or.inr ⟨expiredSession, by decide, by decide⟩)

/-- Helper: inverting a bind whose head is an appAssert — it yields an ok
result exactly when the asserted condition holds and the continuation
yields that result. -/
theorem appAssert_bound (cond : Bool) (st : Nat) (msg : String)
    {α : Type} (k : Unit → Except AppError α) (r : α) :
    (appAssert cond st msg >>= k) = .ok r ↔
      cond = true ∧ k () = .ok r := by
  cases cond <;> simp [appAssert, Bind.bind, Except.bind]

/-- Helper: when no stored code carries the requested id, verifyEmail
fails NotFound whatever the time. -/
theorem verifyEmail_no_code (now : Int) (codeId : Nat) (db : DB)
    (h : ∀ c ∈ db.codes, c.id ≠ codeId) :
    verifyEmail now codeId db =
      .error ⟨NOT_FOUND, "Invalid or expired verification code"⟩ := by
  have hnone : db.codes.find? (fun c =>
      c.id == codeId && c.type == VerificationCodeType.EmailVerification &&
      c.expiresAt > now) = none := by
    refine List.find?_eq_none.mpr fun x hx => ?_
    simp [h x hx]
  simp only [verifyEmail, hnone]

/-- C5: a successful verifyEmail call deletes the consumed code, so a
second call with the same id on the resulting store fails NotFound with
message Invalid or expired verification code, at any later (or any)
time. -/
theorem verifyEmail_single_use (now now₂ : Int) (codeId : Nat) (db : DB)
    (r : UserDTO × DB) (h : verifyEmail now codeId db = .ok r) :
    verifyEmail now₂ codeId r.2 =
      .error ⟨NOT_FOUND, "Invalid or expired verification code"⟩ := by
  obtain ⟨ru, rdb⟩ := r
  unfold verifyEmail at h
  cases hc : db.codes.find? (fun c =>
      c.id == codeId && c.type == VerificationCodeType.EmailVerification &&
      c.expiresAt > now) with
  | none => simp [hc] at h
  | some validCode =>
    simp only [hc] at h
    cases hu : db.users.find? (fun u => u.id == validCode.userId) with
    | none => simp [hu] at h
    | some user =>
      simp only [hu, Except.ok.injEq, Prod.mk.injEq] at h
      have hid : validCode.id = codeId := by
        have hp := List.find?_some hc
        simp only [Bool.and_eq_true, beq_iff_eq, decide_eq_true_eq] at hp
        exact hp.1.1
      have hrdb := h.2
      subst hrdb
      refine verifyEmail_no_code now₂ codeId _ fun c hcmem => ?_
      have hmem := List.mem_filter.mp hcmem
      have hne : c.id ≠ validCode.id := bne_iff_ne.mp hmem.2
      exact hid ▸ hne

/-- Witness for C5: consuming the concrete email-verification code with
id 5 at time 500 succeeds and yields verifiedDB, and consuming id 5 again
at time 600 fails NotFound. -/
theorem verifyEmail_single_use_witness :
    verifyEmail 500 5 verifyDB =
      .ok (⟨0, "a@x.com", true, 0⟩, verifiedDB) ∧
    verifyEmail 600 5 verifiedDB =
      .error ⟨NOT_FOUND, "Invalid or expired verification code"⟩ :=
  ⟨rfl,
   verifyEmail_single_use 500 600 5 verifyDB (⟨0, "a@x.com", true, 0⟩,
     verifiedDB) rfl⟩

/-- C6: with the requesting user stored, if at least 2 PasswordReset
codes were created for that user within the last 5 minutes, the internal
logic of the password-reset request aborts with TooManyRequests and the
store is unchanged (no code created); if at most 1 such code exists, a
new PasswordReset code with a 1-hour expiry is appended for that user,
whatever the mail outcome. -/
theorem sendPasswordResetEmail_throttle (now : Int) (mail : MailResult)
    (email : String) (db : DB) (u : User)
    (hu : db.users.find? (fun v => v.email == email) = some u) :
    (2 ≤ (db.codes.filter fun c => c.userId == u.id &&
        c.type == VerificationCodeType.PasswordReset &&
        c.createdAt > fiveMinutesAgo now).length →
      sendPasswordResetEmailTry now mail email db =
        .error (⟨TOO_MANY_REQUESTS,
                 "Too many requests, please try again later"⟩, db)) ∧
    ((db.codes.filter fun c => c.userId == u.id &&
        c.type == VerificationCodeType.PasswordReset &&
        c.createdAt > fiveMinutesAgo now).length ≤ 1 →
      (tryStateDB (sendPasswordResetEmailTry now mail email db)).codes =
        db.codes ++ [{ id := db.nextId, userId := u.id,
                       type := VerificationCodeType.PasswordReset,
                       expiresAt := oneHourFromNow now,
                       createdAt := now }]) := by
  constructor
  · intro hge
    have hnot : ¬((db.codes.filter fun c => c.userId == u.id &&
        c.type == VerificationCodeType.PasswordReset &&
        c.createdAt > fiveMinutesAgo now).length ≤ 1) := by omega
    simp only [sendPasswordResetEmailTry, hu, if_neg hnot]
  · intro hle
    cases mail with
    | delivered mailId =>
      simp only [sendPasswordResetEmailTry, hu, if_pos hle, tryStateDB]
    | failed name msg =>
      simp only [sendPasswordResetEmailTry, hu, if_pos hle, tryStateDB]

/-- Witness for C6, creation branch: demoUser has no recent reset codes,
so a request at time 0 appends one PasswordReset code expiring at one
hour. -/
theorem sendPasswordResetEmail_throttle_witness :
    (tryStateDB (sendPasswordResetEmailTry 0 (.delivered "m1") "a@x.com"
        userOnlyDB)).codes =
      userOnlyDB.codes ++ [{ id := userOnlyDB.nextId, userId := demoUser.id,
                             type := VerificationCodeType.PasswordReset,
                             expiresAt := oneHourFromNow 0,
                             createdAt := 0 }] :=
  (sendPasswordResetEmail_throttle 0 (.delivered "m1") "a@x.com"
    userOnlyDB demoUser (by decide)).2 (by decide)

/-- C7: the password-reset request never propagates a failure: the caller
always receives a success-shaped pair whose optional payload carries the
reset url and delivery id exactly when the whole internal pipeline
succeeded and is empty otherwise — the internal error value is discarded
wholesale, so no signal distinguishes which internal step failed — and
whose store component is whatever state the internal pipeline reached. -/
theorem sendPasswordResetEmail_always_succeeds (now : Int)
    (mail : MailResult) (email : String) (db : DB) :
    (sendPasswordResetEmail now mail email db).1 =
      (sendPasswordResetEmailTry now mail email db).toOption.map Prod.fst ∧
    (sendPasswordResetEmail now mail email db).2 =
      tryStateDB (sendPasswordResetEmailTry now mail email db) := by
  unfold sendPasswordResetEmail
  cases h : sendPasswordResetEmailTry now mail email db with
  | ok r => obtain ⟨a, d⟩ := r; exact ⟨rfl, rfl⟩
  | error e => obtain ⟨a, d⟩ := e; exact ⟨rfl, rfl⟩

/-- C8: the omitPassword projection discards the password hash — two
users differing only in their password project identically — and every
user object returned by a successful operation is the omitPassword
projection of a stored user, across all operations that return a user
(refreshUserAccessToken and sendPasswordResetEmail return no user object
at all, by their result types). -/
theorem returned_users_omit_password :
    (∀ (u : User) (p : String),
      User.omitPassword { u with password := p } = User.omitPassword u) ∧
    (∀ (hash : String → String) (now : Int) (mail : MailResult)
      (data : CreateAccountParams) (db : DB) (r : AuthResult) (db' : DB),
      createAccount hash now mail data db = .ok (r, db') →
      ∃ u ∈ db'.users, r.user = u.omitPassword) ∧
    (∀ (hash : String → String) (now : Int) (p : LoginParams) (db : DB)
      (r : AuthResult) (db' : DB),
      loginUser hash now p db = .ok (r, db') →
      ∃ u ∈ db'.users, r.user = u.omitPassword) ∧
    (∀ (now : Int) (code : Nat) (db : DB) (r : UserDTO) (db' : DB),
      verifyEmail now code db = .ok (r, db') →
      ∃ u ∈ db'.users, r = u.omitPassword) ∧
    (∀ (hash : String → String) (now : Int) (p : ResetPasswordParams)
      (db : DB) (r : UserDTO) (db' : DB),
      resetPassword hash now p db = .ok (r, db') →
      ∃ u ∈ db'.users, r = u.omitPassword) := by
  refine ⟨fun u p => rfl, ?_, ?_, ?_, ?_⟩
  · intro hash now mail data db r db' h
    unfold createAccount at h
    cases han : db.users.any (fun u => u.email == data.email) with
    | true => simp [han, appAssert_bound] at h
    | false =>
      simp only [han, appAssert_bound, Bool.not_false, Except.ok.injEq,
        Prod.mk.injEq, true_and] at h
      obtain ⟨h1, h2⟩ := h
      subst h2
      refine ⟨{ id := db.nextId, email := data.email,
                password := hash data.password, verified := false,
                createdAt := now }, by simp, ?_⟩
      rw [← h1]
  · intro hash now p db r db' h
    unfold loginUser at h
    cases hf : db.users.find? (fun u => u.email == p.email) with
    | none => simp [hf, appAssert_bound] at h
    | some u =>
      simp only [hf, appAssert_bound, Option.isSome_some, Except.ok.injEq,
        Prod.mk.injEq, true_and] at h
      obtain ⟨h1, h2⟩ := h
      subst h2
      exact ⟨u, List.mem_of_find?_eq_some hf, by rw [← h1]⟩
  · intro now code db r db' h
    unfold verifyEmail at h
    cases hc : db.codes.find? (fun c =>
        c.id == code && c.type == VerificationCodeType.EmailVerification &&
        c.expiresAt > now) with
    | none => simp [hc] at h
    | some validCode =>
      simp only [hc] at h
      cases hu : db.users.find? (fun u => u.id == validCode.userId) with
      | none => simp [hu] at h
      | some user =>
        simp only [hu, Except.ok.injEq, Prod.mk.injEq] at h
        obtain ⟨h1, h2⟩ := h
        subst h2
        refine ⟨{ user with verified := true }, ?_, h1.symm⟩
        have hmem := List.mem_map_of_mem (fun u : User =>
          if u.id == validCode.userId then { u with verified := true }
          else u) (List.mem_of_find?_eq_some hu)
        simpa [List.find?_some hu] using hmem
  · intro hash now p db r db' h
    unfold resetPassword at h
    cases hc : db.codes.find? (fun c =>
        c.id == p.verificationCode &&
        c.type == VerificationCodeType.PasswordReset &&
        c.expiresAt > now) with
    | none => simp [hc] at h
    | some validCode =>
      simp only [hc] at h
      cases hu : db.users.find? (fun u => u.id == validCode.userId) with
      | none => simp [hu] at h
      | some user =>
        simp only [hu, Except.ok.injEq, Prod.mk.injEq] at h
        obtain ⟨h1, h2⟩ := h
        subst h2
        refine ⟨{ user with password := hash p.password }, ?_, h1.symm⟩
        have hmem := List.mem_map_of_mem (fun u : User =>
          if u.id == validCode.userId then
            { u with password := hash p.password }
          else u) (List.mem_of_find?_eq_some hu)
        simpa [List.find?_some hu] using hmem

/-- Witness for C8, applied to account creation on the empty store: the
returned user object is the omitPassword projection of the stored new
user. -/
theorem returned_users_omit_password_witness :
    ∃ u ∈ createdDB.users, createdResult.user = u.omitPassword :=
  returned_users_omit_password.2.1 demoHash 0 (.delivered "m")
    ⟨"b@x.com", "pw", none⟩ emptyDB createdResult createdDB rfl

/-- C9: a successful refreshUserAccessToken call changes no user, no
verification code and no id counter, and its session store is either
completely unchanged or exactly the input store with the single session
referenced by the token payload extended to thirty days from now — and
that only when the session was live and within 24 hours of expiry.  A
failing call returns no store at all. -/
theorem refreshUserAccessToken_frame (now : Int)
    (p? : Option RefreshTokenPayload) (db : DB) (r : RefreshResult)
    (db' : DB) (h : refreshUserAccessToken now p? db = .ok (r, db')) :
    db'.users = db.users ∧ db'.codes = db.codes ∧
    db'.nextId = db.nextId ∧
    (db'.sessions = db.sessions ∨
      ∃ sid s, p? = some ⟨sid⟩ ∧
        db.sessions.find? (fun t => t.id == sid) = some s ∧
        now < s.expiresAt ∧ s.expiresAt - now ≤ ONE_DAY_MS ∧
        db'.sessions = db.sessions.map fun t =>
          if t.id == s.id then
            { t with expiresAt := thirtyDaysFromNow now }
          else t) := by
  cases p? with
  | none => simp [refreshUserAccessToken] at h
  | some payload =>
    unfold refreshUserAccessToken at h
    cases hf : db.sessions.find? (fun t => t.id == payload.sessionId) with
    | none => simp [hf] at h
    | some t =>
      simp only [hf] at h
      by_cases hlive : t.expiresAt > now
      · rw [if_pos hlive] at h
        by_cases hren : t.expiresAt - now ≤ ONE_DAY_MS
        · simp only [if_pos hren, Except.ok.injEq, Prod.mk.injEq] at h
          obtain ⟨h1, h2⟩ := h
          subst h2
          exact ⟨rfl, rfl, rfl,
            Or.inr ⟨payload.sessionId, t, rfl, hf, hlive, hren, rfl⟩⟩
        · simp only [if_neg hren, Except.ok.injEq, Prod.mk.injEq] at h
          obtain ⟨h1, h2⟩ := h
          subst h2
          exact ⟨rfl, rfl, rfl, Or.inl rfl⟩
      · rw [if_neg hlive] at h
        simp at h

/-- Witness for C9 at a concrete non-renewal refresh: the far-future
session leaves the store untouched. -/
theorem refreshUserAccessToken_frame_witness :
    farDB.users = farDB.users ∧ farDB.codes = farDB.codes ∧
    farDB.nextId = farDB.nextId ∧
    (farDB.sessions = farDB.sessions ∨
      ∃ sid s, (some ⟨6⟩ : Option RefreshTokenPayload) = some ⟨sid⟩ ∧
        farDB.sessions.find? (fun t => t.id == sid) = some s ∧
        (500 : Int) < s.expiresAt ∧ s.expiresAt - 500 ≤ ONE_DAY_MS ∧
        farDB.sessions = farDB.sessions.map fun t =>
          if t.id == s.id then
            { t with expiresAt := thirtyDaysFromNow 500 }
          else t) :=
  refreshUserAccessToken_frame 500 (some ⟨6⟩) farDB
    ⟨Token.access 2 6, none⟩ farDB rfl

/-- Helper: the password-reset request pipeline never touches the session
store, in either of its outcomes. -/
theorem sendPasswordResetEmailTry_sessions (now : Int) (mail : MailResult)
    (email : String) (db : DB) :
    (tryStateDB (sendPasswordResetEmailTry now mail email db)).sessions =
      db.sessions := by
  unfold sendPasswordResetEmailTry
  cases hf : db.users.find? (fun v => v.email == email) with
  | none => simp [tryStateDB, hf]
  | some u =>
    simp only [hf]
    by_cases hc : (db.codes.filter fun c => c.userId == u.id &&
        c.type == VerificationCodeType.PasswordReset &&
        c.createdAt > fiveMinutesAgo now).length ≤ 1
    · simp only [if_pos hc]
      cases mail <;> simp [tryStateDB]
    · simp only [if_neg hc]
      simp [tryStateDB]

/-- Helper: symmetry of having distinct ids. -/
theorem distinct_ids_symm :
    Symmetric fun a b : Session => a.id ≠ b.id :=
  fun _ _ hab => hab.symm

/-- C10: assuming the store's session ids are pairwise distinct (the
stores are keyed by id), a session already expired at now is never
mutated by any of the six operations at time now: account creation,
login, email verification and the password-reset request leave it in
place untouched, refresh leaves it in place untouched (the renewal branch
only rewrites the live referenced session, which cannot be the expired
one), and password-reset completion either leaves it untouched or deletes
it outright, never leaving a modified session with its id. -/
theorem expired_sessions_never_mutated (now : Int) (db : DB)
    (hids : db.sessions.Pairwise fun a b => a.id ≠ b.id) :
    (∀ (hash : String → String) (mail : MailResult)
      (data : CreateAccountParams) (r : AuthResult) (db' : DB),
      createAccount hash now mail data db = .ok (r, db') →
      preservesExpiredSessions db db' now) ∧
    (∀ (hash : String → String) (p : LoginParams) (r : AuthResult)
      (db' : DB),
      loginUser hash now p db = .ok (r, db') →
      preservesExpiredSessions db db' now) ∧
    (∀ (p? : Option RefreshTokenPayload) (r : RefreshResult) (db' : DB),
      refreshUserAccessToken now p? db = .ok (r, db') →
      ∀ s ∈ db.sessions, s.expiresAt ≤ now → s ∈ db'.sessions) ∧
    (∀ (code : Nat) (r : UserDTO) (db' : DB),
      verifyEmail now code db = .ok (r, db') →
      preservesExpiredSessions db db' now) ∧
    (∀ (mail : MailResult) (email : String) (res : Option ResetEmailData)
      (db' : DB),
      sendPasswordResetEmail now mail email db = (res, db') →
      preservesExpiredSessions db db' now) ∧
    (∀ (hash : String → String) (p : ResetPasswordParams) (r : UserDTO)
      (db' : DB),
      resetPassword hash now p db = .ok (r, db') →
      preservesExpiredSessions db db' now) := by
  refine ⟨?_, ?_, ?_, ?_, ?_, ?_⟩
  · intro hash mail data r db' h
    unfold createAccount at h
    cases han : db.users.any (fun u => u.email == data.email) with
    | true => simp [han, appAssert_bound] at h
    | false =>
      simp only [han, appAssert_bound, Bool.not_false, Except.ok.injEq,
        Prod.mk.injEq, true_and] at h
      obtain ⟨h1, h2⟩ := h
      subst h2
      intro s hs _
      exact Or.inl (List.mem_append_left _ hs)
  · intro hash p r db' h
    unfold loginUser at h
    cases hf : db.users.find? (fun u => u.email == p.email) with
    | none => simp [hf, appAssert_bound] at h
    | some u =>
      simp only [hf, appAssert_bound, Option.isSome_some, Except.ok.injEq,
        Prod.mk.injEq, true_and] at h
      obtain ⟨h1, h2⟩ := h
      subst h2
      intro s hs _
      exact Or.inl (List.mem_append_left _ hs)
  · intro p? r db' h
    cases p? with
    | none => simp [refreshUserAccessToken] at h
    | some payload =>
      unfold refreshUserAccessToken at h
      cases hf : db.sessions.find? (fun t => t.id == payload.sessionId) with
      | none => simp [hf] at h
      | some t =>
        simp only [hf] at h
        by_cases hlive : t.expiresAt > now
        · rw [if_pos hlive] at h
          by_cases hren : t.expiresAt - now ≤ ONE_DAY_MS
          · simp only [if_pos hren, Except.ok.injEq, Prod.mk.injEq] at h
            obtain ⟨h1, h2⟩ := h
            subst h2
            intro s hs hexp
            have hst : s ≠ t := by
              intro he
              exact absurd hlive (not_lt.mpr (he ▸ hexp))
            have hne : s.id ≠ t.id :=
              hids.forall distinct_ids_symm hs
                (List.mem_of_find?_eq_some hf) hst
            have hmm := List.mem_map_of_mem (fun u : Session =>
              if u.id == t.id then
                { u with expiresAt := thirtyDaysFromNow now }
              else u) hs
            simpa [hne] using hmm
          · simp only [if_neg hren, Except.ok.injEq, Prod.mk.injEq] at h
            obtain ⟨h1, h2⟩ := h
            subst h2
            intro s hs _
            exact hs
        · rw [if_neg hlive] at h
          simp at h
  · intro code r db' h
    unfold verifyEmail at h
    cases hc : db.codes.find? (fun c =>
        c.id == code && c.type == VerificationCodeType.EmailVerification &&
        c.expiresAt > now) with
    | none => simp [hc] at h
    | some validCode =>
      simp only [hc] at h
      cases hu : db.users.find? (fun u => u.id == validCode.userId) with
      | none => simp [hu] at h
      | some user =>
        simp only [hu, Except.ok.injEq, Prod.mk.injEq] at h
        obtain ⟨h1, h2⟩ := h
        subst h2
        intro s hs _
        exact Or.inl hs
  · intro mail email res db' h
    unfold sendPasswordResetEmail at h
    have hsess := sendPasswordResetEmailTry_sessions now mail email db
    cases ht : sendPasswordResetEmailTry now mail email db with
    | ok v =>
      obtain ⟨a, d⟩ := v
      simp only [ht] at h
      rw [ht] at hsess
      simp only [tryStateDB] at hsess
      simp only [Prod.mk.injEq] at h
      obtain ⟨h1, h2⟩ := h
      subst h2
      intro s hs _
      exact Or.inl (hsess ▸ hs)
    | error e =>
      obtain ⟨a, d⟩ := e
      simp only [ht] at h
      rw [ht] at hsess
      simp only [tryStateDB] at hsess
      simp only [Prod.mk.injEq] at h
      obtain ⟨h1, h2⟩ := h
      subst h2
      intro s hs _
      exact Or.inl (hsess ▸ hs)
  · intro hash p r db' h
    unfold resetPassword at h
    cases hc : db.codes.find? (fun c =>
        c.id == p.verificationCode &&
        c.type == VerificationCodeType.PasswordReset &&
        c.expiresAt > now) with
    | none => simp [hc] at h
    | some validCode =>
      simp only [hc] at h
      cases hu : db.users.find? (fun u => u.id == validCode.userId) with
      | none => simp [hu] at h
      | some user =>
        simp only [hu, Except.ok.injEq, Prod.mk.injEq] at h
        obtain ⟨h1, h2⟩ := h
        subst h2
        intro s hs _
        by_cases hbc : s.userId = validCode.userId
        · right
          intro t ht'
          have hmem := List.mem_filter.mp ht'
          have htne : t.userId ≠ validCode.userId :=
            bne_iff_ne.mp hmem.2
          have hts : t ≠ s := fun he => htne (he ▸ hbc)
          exact hids.forall distinct_ids_symm hmem.1 hs hts
        · left
          exact List.mem_filter.mpr ⟨hs, bne_iff_ne.mpr hbc⟩

/-- Witness for C10 at the refresh conjunct: renewing the live session 3
of refreshDB at time 500 keeps the expired session 4 in the store
untouched. -/
theorem expired_sessions_never_mutated_witness :
    expiredSession ∈ renewedDB.sessions :=
  (expired_sessions_never_mutated 500 refreshDB (by decide)).2.2.1
    (some ⟨3⟩) ⟨Token.access 0 3, some (Token.refresh 3)⟩ renewedDB rfl
    expiredSession (by simp [refreshDB]) (by decide)

end AuthService
